import Mathlib

/-!
A shallow embedding of `src/http_connection.cpp`, the single-request
HTTP/1.1 client connection of this repository.  Each member function of
`http_connection` is translated into a pure Lean function from an explicit
connection state to a new state paired with the list of externally visible
effects (handler invocations, posted callbacks, socket and timer
operations).  External collaborators that are not part of the provided
source files (the URL parser, the incremental HTTP response parser, the
gzip inflater, the resolver, the random shuffle and the user-installed
filter hooks) are treated as inputs: the definitions take their outcomes
as explicit environment parameters, and the theorems quantify over every
possible behaviour of those collaborators.
-/

set_option autoImplicit false

namespace http_connection

/-- Error codes observable through the connection, mirroring the error
values used in `http_connection.cpp` (`errors::...`, `boost::asio::error::...`
and `boost::system::errc::...`). -/
inductive ErrCode where
  | success
  | operationAborted
  | eofErr
  | shutDown
  | urlParseError
  | blockedByIdna
  | unsupportedUrlProtocol
  | httpParseError
  | httpMissingLocation
  | fileTooLarge
  | timedOut
  | gzipInflateError
  | addressFamilyNotSupported
  | resolveFailed
  | connectFailed
  | bindFailed
  | sslSetupFailed
  deriving DecidableEq, Repr

/-- An IP address: its family (v4 or v6) and an abstract identity. -/
structure Addr where
  isV4 : Bool := true
  addrId : Nat := 0
  deriving DecidableEq, Repr

/-- A resolved `tcp::endpoint`: an address paired with a port. -/
structure Endpoint where
  addr : Addr := {}
  port : Nat := 0
  deriving DecidableEq, Repr

/-- Proxy types from `settings_pack` used by `http_connection.cpp`. -/
inductive ProxyType where
  | noProxy
  | socks4
  | socks5
  | socks5_pw
  | http
  | http_pw
  deriving DecidableEq, Repr

/-- The `aux::proxy_settings` snapshot (`m_proxy`). -/
structure ProxySettings where
  ptype : ProxyType := ProxyType.noProxy
  hostname : String := ""
  port : Int := 0
  username : String := ""
  password : String := ""
  proxyHostnames : Bool := false
  deriving DecidableEq, Repr

/-- The observable interface of the incremental HTTP response parser
(`m_parser`).  The parser implementation is not part of the provided
sources; the connection code only queries these observables, so the
embedding carries them as a record that is replaced wholesale by the
oracle outcome of each `incoming` feed. -/
structure ParserView where
  headerFinished : Bool := false
  finished : Bool := false
  statusCode : Int := 0
  location : String := ""
  contentEncoding : String := ""
  bodyStart : Nat := 0
  bodySize : Nat := 0
  deriving DecidableEq, Repr

/-- Reset: `m_parser.reset()` restores the freshly-constructed parser state. -/
def ParserView.reset : ParserView := {}

/-- The parsed pieces of a URL as produced by `parse_url_components`
(scheme, userinfo, hostname, port with `-1` for "absent", path). -/
structure UrlParts where
  protocol : String := ""
  auth : String := ""
  hostname : String := ""
  port : Int := -1
  path : String := "/"
  deriving DecidableEq, Repr

/-- The mutable state of one `http_connection` object: every data member
of the class that the translated member functions read or write. -/
structure Conn where
  bottled : Bool := false
  called : Bool := false
  abort : Bool := false
  connecting : Bool := false
  resolvingHost : Bool := false
  handlerSet : Bool := true
  connectHandlerSet : Bool := false
  filterHandlerSet : Bool := false
  hostnameFilterSet : Bool := false
  sockExists : Bool := false
  sockOpen : Bool := false
  endpoints : List Endpoint := []
  nextEp : Nat := 0
  recvSize : Nat := 0
  readPos : Nat := 0
  maxBottled : Nat := 1024
  rateLimit : Int := 0
  downloadQuota : Int := 0
  limiterActive : Bool := false
  redirects : Int := 5
  parser : ParserView := {}
  url : String := ""
  sendbuffer : String := ""
  hostname : String := ""
  port : Nat := 0
  ssl : Bool := false
  bindAddr : Option Addr := Option.none
  userAgent : String := ""
  auth : String := ""
  resolveFlags : Nat := 0
  priority : Nat := 0
  proxy : ProxySettings := {}
  completionTimeout : Nat := 5
  startTime : Nat := 0
  lastReceive : Nat := 0

/-- Externally visible actions performed by the connection code. -/
inductive Effect where
  | invokeHandler (e : ErrCode)
  | postCallback (e : ErrCode)
  | asyncConnect (ep : Endpoint)
  | asyncWrite
  | asyncReadSome (amount : Int)
  | asyncResolve (hostname : String)
  | armTimerAfter (d : Nat)
  | armTimerAt (t : Nat)
  | cancelTimer
  | armLimiterTimer
  | cancelLimiterTimer
  | closeSock
  | asyncShutdown
  | invokeConnectHandler
  | setDstName (hostname : String)
  | recursiveGet (url : String) (timeout : Nat) (prio : Nat)
      (proxy : ProxySettings) (redirects : Int) (ua : String)
      (bindAddr : Option Addr) (rflags : Nat) (auth : String)

/-- Outcomes of the external collaborators consulted by `callback`:
`http_parser::collapse_chunk_headers` and `inflate_gzip`. -/
structure CbEnv where
  inflateOk : Bool := true

/-- Outcome of `make_address(m_hostname)` inside `connect`: `some a` when
the stored hostname is a literal IP address `a`, `none` otherwise. -/
structure ConnectEnv where
  hostnameAsIP : Option Addr := Option.none

/-- Oracle outcomes consumed by one `on_read` completion: the parser view
after feeding the buffer prefix, the parse-error flag of that feed, the
`aux::is_redirect` predicate, the redirect-URL joiner
`aux::resolve_redirect_location`, and the current wall clock. -/
structure ReadEnv where
  cb : CbEnv := {}
  parserAfter : ParserView := {}
  parseError : Bool := false
  isRedirect : Int → Bool := fun c => decide (300 ≤ c) && decide (c < 400)
  resolveRedirect : String → String → String := fun _ l => l
  now : Nat := 0

/-- Oracle outcomes consumed by `on_resolve`: the user `endpoint_filter`
hook (which may rewrite the endpoint list arbitrarily), the
`random_shuffle` permutation, the environment for the nested `connect`,
and the current wall clock. -/
structure ResolveEnv where
  cb : CbEnv := {}
  filter : List Endpoint → List Endpoint := id
  shuffle : List Endpoint → List Endpoint := id
  connectEnv : ConnectEnv := {}
  now : Nat := 0

/-- Oracle outcomes consumed by `start`: whether `open`+`bind` of the
bound socket fails, and whether `setup_ssl_hostname` fails. -/
structure StartEnv where
  bindFails : Bool := false
  sslSetupFails : Bool := false
  connectEnv : ConnectEnv := {}

/-- Oracle outcomes consumed by `get`: the result of
`parse_url_components` on the supplied URL (`none` = parse error), the
user `hostname_filter` hook, `base64encode`, and the `start` environment. -/
structure GetEnv where
  parse : Option UrlParts := Option.none
  hostnameAllowed : String → Bool := fun _ => true
  b64 : String → String := id
  startEnv : StartEnv := {}

/-- Second half of `http_connection::callback` (lines 535-537): set the
`m_called` flag, cancel the deadline timer, and invoke the handler if one
is still installed. -/
def callbackFinish (s : Conn) (e : ErrCode) : Conn × List Effect :=
  ({ s with called := true },
   Effect.cancelTimer ::
     (if s.handlerSet then [Effect.invokeHandler e] else []))

/-- Translation of `http_connection::callback` (lines 507-538).  `dataNonempty` states
whether the `span<char> data` argument is non-empty. -/
def callback (env : CbEnv) (s : Conn) (e : ErrCode) (dataNonempty : Bool) :
    Conn × List Effect :=
  if s.bottled && s.called then (s, [])
  else if dataNonempty && s.bottled && s.parser.headerFinished then
    if s.parser.contentEncoding = "gzip" ∨ s.parser.contentEncoding = "x-gzip" then
      if env.inflateOk then
        callbackFinish s (if s.parser.finished then ErrCode.success else e)
      else
        (s, if s.handlerSet then [Effect.invokeHandler ErrCode.gzipInflateError] else [])
    else
      callbackFinish s (if s.parser.finished then ErrCode.success else e)
  else
    callbackFinish s e

/-- Translation of `http_connection::close(bool force)` (lines 351-377). -/
def close (s : Conn) (force : Bool) : Conn × List Effect :=
  if s.abort then (s, [])
  else
    let r :=
      if s.sockExists then
        if force then
          ({ s with sockOpen := false }, [Effect.closeSock, Effect.cancelTimer])
        else
          (s, [Effect.asyncShutdown])
      else (s, [Effect.cancelTimer])
    ({ r.1 with hostname := "", port := 0, handlerSet := false, abort := true },
     r.2 ++ [Effect.cancelLimiterTimer])

/-- Translation of `http_connection::connect` (lines 425-475). -/
def connect (env : ConnectEnv) (s : Conn) : Conn × List Effect :=
  let r :
      Conn × List Effect :=
    if s.proxy.proxyHostnames
        ∧ (s.proxy.ptype = ProxyType.socks5 ∨ s.proxy.ptype = ProxyType.socks5_pw) then
      match env.hostnameAsIP with
      | Option.none => (s, [Effect.setDstName s.hostname])
      | Option.some a =>
        ({ s with endpoints :=
            match s.endpoints with
            | [] => []
            | ep :: rest => { ep with addr := a } :: rest }, [])
    else (s, [])
  let s := r.1
  if s.endpoints.length ≤ s.nextEp then (s, r.2)
  else
    let target := s.endpoints.getD s.nextEp {}
    ({ s with nextEp := s.nextEp + 1, connecting := true, sockOpen := true },
     r.2 ++ [Effect.asyncConnect target])

/-- Translation of `http_connection::on_connect` (lines 477-505). -/
def on_connect (cenv : CbEnv) (env : ConnectEnv) (s : Conn) (e : ErrCode)
    (now : Nat) : Conn × List Effect :=
  let s := { s with connecting := false, lastReceive := now, startTime := now }
  if e = ErrCode.success then
    (s, (if s.connectHandlerSet then [Effect.invokeConnectHandler] else [])
          ++ [Effect.asyncWrite])
  else if s.nextEp < s.endpoints.length ∧ s.abort = false then
    let r := connect env { s with sockOpen := false }
    (r.1, Effect.closeSock :: r.2)
  else
    let r := callback cenv { s with sockOpen := false } e false
    (r.1, Effect.closeSock :: r.2)

/-- Translation of `http_connection::on_assign_bandwidth` (lines 727-763). -/
def on_assign_bandwidth (cenv : CbEnv) (s : Conn) (e : ErrCode) :
    Conn × List Effect :=
  if (e = ErrCode.operationAborted ∧ s.limiterActive) ∨ s.sockOpen = false then
    callback cenv s ErrCode.eofErr false
  else
    let s := { s with limiterActive := false }
    if e ≠ ErrCode.success then (s, [])
    else if s.abort then (s, [])
    else if 0 < s.downloadQuota then (s, [])
    else
      let s := { s with downloadQuota := s.rateLimit / 4 }
      let room : Int := (s.recvSize : Int) - (s.readPos : Int)
      let amount := if s.downloadQuota < room then s.downloadQuota else room
      if s.sockOpen = false then (s, [])
      else
        ({ s with limiterActive := true },
         [Effect.asyncReadSome amount, Effect.armLimiterTimer])

/-- Translation of `http_connection::on_write` (lines 540-576). -/
def on_write (cenv : CbEnv) (s : Conn) (e : ErrCode) : Conn × List Effect :=
  if e = ErrCode.operationAborted then (s, [])
  else if e ≠ ErrCode.success then callback cenv s e false
  else if s.abort then (s, [])
  else
    let s := { s with sendbuffer := "", recvSize := 4096 }
    let room : Int := (s.recvSize : Int) - (s.readPos : Int)
    if 0 < s.rateLimit ∧ s.downloadQuota < room then
      if s.downloadQuota = 0 then
        if s.limiterActive = false then on_assign_bandwidth cenv s ErrCode.success
        else (s, [])
      else (s, [Effect.asyncReadSome s.downloadQuota])
    else (s, [Effect.asyncReadSome room])

/-- Tail of `http_connection::on_read` (lines 695-724), reached on every
path of `on_read` that has not returned earlier: grow the receive buffer
when it is full, fail with `file_too_large` at the size cap, and issue
the next `async_read_some` honouring the rate limiter. -/
def on_read_tail (env : ReadEnv) (s : Conn) : Conn × List Effect :=
  let s :=
    if s.recvSize = s.readPos then
      { s with recvSize := min (s.readPos * 2) s.maxBottled }
    else s
  if s.readPos = s.maxBottled then
    callback env.cb s ErrCode.fileTooLarge false
  else
    let room : Int := (s.recvSize : Int) - (s.readPos : Int)
    if 0 < s.rateLimit ∧ s.downloadQuota < room then
      if s.downloadQuota = 0 then
        if s.limiterActive = false then on_assign_bandwidth env.cb s ErrCode.success
        else (s, [])
      else (s, [Effect.asyncReadSome s.downloadQuota])
    else (s, [Effect.asyncReadSome room])

/-- Middle of `http_connection::on_read` (lines 620-693): the successful
read path, after `m_read_pos` has been advanced.  Feeds the parser,
handles redirects, delivers streamed or bottled data, and falls through
to `on_read_tail`. -/
def on_read_body (env : ReadEnv) (s : Conn) (e : ErrCode) : Conn × List Effect :=
  if s.bottled ∨ s.parser.headerFinished = false then
    let s := { s with parser := env.parserAfter }
    if env.parseError then callback env.cb s ErrCode.httpParseError false
    else if s.redirects ≠ 0 ∧ s.parser.headerFinished
        ∧ env.isRedirect s.parser.statusCode then
      if s.parser.location = "" then
        callback env.cb s ErrCode.httpMissingLocation false
      else
        ({ s with sockOpen := false },
         [Effect.closeSock,
          Effect.recursiveGet (env.resolveRedirect s.url s.parser.location)
            s.completionTimeout s.priority s.proxy (s.redirects - 1)
            s.userAgent s.bindAddr s.resolveFlags s.auth])
    else
      let s :=
        if s.redirects ≠ 0 ∧ s.parser.headerFinished then { s with redirects := 0 }
        else s
      if s.bottled = false ∧ s.parser.headerFinished then
        let r1 :=
          if s.parser.bodyStart < s.readPos then callback env.cb s e true
          else (s, [])
        let r2 := on_read_tail env { r1.1 with readPos := 0, lastReceive := env.now }
        (r2.1, r1.2 ++ r2.2)
      else if s.bottled ∧ s.parser.finished then
        let r1 := callback env.cb s e (decide (s.parser.bodyStart < s.readPos))
        let r2 := on_read_tail env r1.1
        (r2.1, Effect.cancelTimer :: r1.2 ++ r2.2)
      else
        on_read_tail env s
  else
    let r1 := callback env.cb s e (decide (0 < s.readPos))
    let r2 := on_read_tail env { r1.1 with readPos := 0, lastReceive := env.now }
    (r2.1, r1.2 ++ r2.2)

/-- Translation of `http_connection::on_read` (lines 578-725). -/
def on_read (env : ReadEnv) (s : Conn) (e : ErrCode) (bytes : Nat) :
    Conn × List Effect :=
  let s :=
    if s.rateLimit ≠ 0 then
      { s with downloadQuota := s.downloadQuota - (bytes : Int) }
    else s
  if e = ErrCode.operationAborted then (s, [])
  else if s.abort then (s, [])
  else if e = ErrCode.eofErr ∨ e = ErrCode.shutDown then
    callback env.cb s ErrCode.eofErr
      (s.bottled && s.parser.headerFinished && decide (0 < s.parser.bodySize))
  else if e ≠ ErrCode.success then callback env.cb s e false
  else on_read_body env { s with readPos := s.readPos + bytes } e

/-- Translation of `http_connection::on_resolve` (lines 379-423). -/
def on_resolve (env : ResolveEnv) (s : Conn) (e : ErrCode)
    (addresses : List Addr) : Conn × List Effect :=
  let s := { s with resolvingHost := false }
  if e ≠ ErrCode.success then callback env.cb s e false
  else
    let s := { s with startTime := env.now }
    let s := { s with endpoints :=
        s.endpoints ++ addresses.map (fun a => ({ addr := a, port := s.port } : Endpoint)) }
    let s :=
      if s.filterHandlerSet then { s with endpoints := env.filter s.endpoints }
      else s
    if s.endpoints = [] then close s false
    else
      let s := { s with endpoints := env.shuffle s.endpoints }
      match s.bindAddr with
      | Option.some b =>
        let s := { s with endpoints :=
            s.endpoints.filter (fun ep => ep.addr.isV4 = b.isV4) }
        if s.endpoints = [] then
          let r1 := callback env.cb s ErrCode.addressFamilyNotSupported false
          let r2 := close r1.1 false
          (r2.1, r1.2 ++ r2.2)
        else connect env.connectEnv s
      | Option.none => connect env.connectEnv s

/-- Translation of `http_connection::on_timeout` (lines 307-349). -/
def on_timeout (cenv : CbEnv) (env : ConnectEnv) (s : Conn) (e : ErrCode)
    (now : Nat) : Conn × List Effect :=
  if e = ErrCode.operationAborted then (s, [])
  else if s.abort then (s, [])
  else
    if s.startTime + s.completionTimeout * (if s.resolvingHost then 2 else 1) ≤ now then
      if s.nextEp < s.endpoints.length then
        let r :=
          if s.connecting = false then connect env { s with sockOpen := false }
          else ({ s with sockOpen := false }, [])
        let s2 := { r.1 with lastReceive := now, startTime := now }
        (s2, Effect.closeSock :: r.2
              ++ [Effect.armTimerAt (s2.startTime + s2.completionTimeout)])
      else
        let r := callback cenv { s with sockOpen := false } ErrCode.timedOut false
        (r.1, Effect.closeSock :: r.2)
    else
      (s, [Effect.armTimerAt (s.startTime + s.completionTimeout)])

/-- Translation of `http_connection::rate_limit` (lines 765-778). -/
def rate_limit (s : Conn) (limit : Int) : Conn × List Effect :=
  if (s.sockExists ∧ s.sockOpen) = False then (s, [])
  else
    let r :=
      if s.limiterActive = false then
        ({ s with limiterActive := true }, [Effect.armLimiterTimer])
      else (s, [])
    ({ r.1 with rateLimit := limit }, r.2)

/-- Translation of `http_connection::start` (lines 188-305). -/
def start (env : StartEnv) (s : Conn) (hostname : String) (port : Int)
    (timeout prio : Nat) (ps : Option ProxySettings) (ssl : Bool)
    (handleRedirects : Int) (bindAddr : Option Addr) (resolveFlags : Nat) :
    Conn × List Effect :=
  let s := { s with
    redirects := handleRedirects, resolveFlags := resolveFlags,
    proxy := match ps with | Option.some p => p | Option.none => s.proxy,
    completionTimeout := timeout,
    called := false, parser := ParserView.reset,
    recvSize := 0, readPos := 0, priority := prio }
  let effs0 := [Effect.armTimerAfter timeout]
  if s.sockExists ∧ s.sockOpen ∧ s.hostname = hostname ∧ (s.port : Int) = port
      ∧ s.ssl = ssl ∧ s.bindAddr = bindAddr then
    (s, effs0 ++ [Effect.asyncWrite])
  else
    let effs1 : List Effect :=
      if s.sockExists ∧ s.sockOpen then [Effect.closeSock] else []
    let s := { s with ssl := ssl, bindAddr := bindAddr,
                      sockExists := true, sockOpen := false }
    if bindAddr.isSome ∧ env.bindFails then
      (s, effs0 ++ effs1 ++ [Effect.postCallback ErrCode.bindFailed])
    else
      let s := if bindAddr.isSome then { s with sockOpen := true } else s
      if env.sslSetupFails then
        (s, effs0 ++ effs1 ++ [Effect.postCallback ErrCode.sslSetupFailed])
      else
        let sentinel : Bool :=
          match ps with
          | Option.some p =>
            p.proxyHostnames
              && (decide (p.ptype = ProxyType.socks5)
                   || decide (p.ptype = ProxyType.socks5_pw))
          | Option.none => false
        if sentinel then
          let s := { s with
            endpoints := [{ addr := {}, port := (port % 65536).toNat }],
            nextEp := 0, hostname := hostname, port := (port % 65536).toNat }
          let r := connect env.connectEnv s
          ({ r.1 with port := (port % 65536).toNat }, effs0 ++ effs1 ++ r.2)
        else
          let s := { s with
            endpoints := [], nextEp := 0, hostname := hostname,
            resolvingHost := true, port := (port % 65536).toNat }
          (s, effs0 ++ effs1 ++ [Effect.asyncResolve hostname])

/-- The request serialization of `http_connection::get` (lines 139-181):
returns the request text together with the (possibly proxy-retargeted)
hostname and port that are passed on to `start`. -/
def build_request (b64 : String → String) (url path hostname : String)
    (port defaultPort : Int) (ps : Option ProxySettings) (ssl : Bool)
    (userAgent : String) (bottled : Bool) (auth : String) :
    String × String × Int :=
  let hd :
      String × String × Int :=
    match ps with
    | Option.some p =>
      if (p.ptype = ProxyType.http ∨ p.ptype = ProxyType.http_pw) ∧ ssl = false then
        ("GET " ++ url ++ " HTTP/1.1\r\n"
          ++ (if p.ptype = ProxyType.http_pw then
                "Proxy-Authorization: Basic " ++ b64 (p.username ++ ":" ++ p.password)
                  ++ "\r\n"
              else "")
          ++ "Host: " ++ hostname
          ++ (if port ≠ defaultPort then ":" ++ toString port else "") ++ "\r\n",
         p.hostname, p.port)
      else
        ("GET " ++ path ++ " HTTP/1.1\r\nHost: " ++ hostname
          ++ (if port ≠ defaultPort then ":" ++ toString port else "") ++ "\r\n",
         hostname, port)
    | Option.none =>
      ("GET " ++ path ++ " HTTP/1.1\r\nHost: " ++ hostname
        ++ (if port ≠ defaultPort then ":" ++ toString port else "") ++ "\r\n",
       hostname, port)
  let tail :=
    (if userAgent ≠ "" then "User-Agent: " ++ userAgent ++ "\r\n" else "")
    ++ (if bottled then "Accept-Encoding: gzip\r\n" else "")
    ++ (if auth ≠ "" then "Authorization: Basic " ++ b64 auth ++ "\r\n" else "")
    ++ "Connection: close\r\n\r\n"
  (hd.1 ++ tail, hd.2.1, hd.2.2)

/-- Translation of `http_connection::get` (lines 84-186). -/
def get (env : GetEnv) (s : Conn) (url : String) (timeout : Nat) (prio : Nat)
    (ps : Option ProxySettings) (handleRedirects : Int) (userAgent : String)
    (bindAddr : Option Addr) (resolveFlags : Nat) (auth_ : String) :
    Conn × List Effect :=
  let s := { s with userAgent := userAgent, resolveFlags := resolveFlags }
  match env.parse with
  | Option.none =>
    let s := { s with auth := auth_ }
    (s, [Effect.postCallback ErrCode.urlParseError])
  | Option.some u =>
    let auth := if u.auth = "" then auth_ else u.auth
    let s := { s with auth := auth }
    let defaultPort : Int := if u.protocol = "https" then 443 else 80
    let port := if u.port = -1 then defaultPort else u.port
    if s.hostnameFilterSet ∧ env.hostnameAllowed u.hostname = false then
      (s, [Effect.postCallback ErrCode.blockedByIdna])
    else if u.protocol ≠ "http" ∧ u.protocol ≠ "https" then
      (s, [Effect.postCallback ErrCode.unsupportedUrlProtocol])
    else
      let ssl := u.protocol = "https"
      let br :=
        build_request env.b64 url u.path u.hostname port defaultPort ps ssl
          userAgent s.bottled auth
      let s := { s with sendbuffer := br.1, url := url }
      start env.startEnv s br.2.1 br.2.2 timeout prio ps ssl
        handleRedirects bindAddr resolveFlags

/-- The state established by the `http_connection` constructor
(lines 43-80). -/
def initConn (handlerSet connectH filterH hostnameF bottled : Bool)
    (maxSize now : Nat) : Conn :=
  { handlerSet := handlerSet
    connectHandlerSet := connectH
    filterHandlerSet := filterH
    hostnameFilterSet := hostnameF
    bottled := bottled
    maxBottled := maxSize
    completionTimeout := 5
    redirects := 5
    startTime := now
    lastReceive := now }

/-- Does this effect invoke the installed `response_handler`? -/
def isInvoke : Effect → Bool
  | Effect.invokeHandler _ => true
  | _ => false

/-- Does the effect list invoke the `response_handler` at least once? -/
def hasInvoke (l : List Effect) : Bool := l.any isInvoke

/-- Number of `response_handler` invocations in an effect list. -/
def countInvoke (l : List Effect) : Nat := l.countP (fun eff => isInvoke eff)

/-- Does this effect issue an `async_read_some`? -/
def isReadSome : Effect → Bool
  | Effect.asyncReadSome _ => true
  | _ => false

/-- Does the effect list issue any `async_read_some`? -/
def hasReadSome (l : List Effect) : Bool := l.any isReadSome

/-- Does this effect issue an `async_connect`? -/
def isConnectAttempt : Effect → Bool
  | Effect.asyncConnect _ => true
  | _ => false

/-- Does the effect list issue any `async_connect`? -/
def hasConnectAttempt (l : List Effect) : Bool := l.any isConnectAttempt

/-- One transition of the connection's event loop: a user call (`get`,
`start`, `close`, `rate_limit`) or the completion handler of an
outstanding asynchronous operation, with arbitrary collaborator
behaviour.  Completion handlers carry the outstanding-operation guards of
the spec's concurrency model (a resolve completion only fires while
`m_resolving_host` is set, a connect completion while `m_connecting` is
set, and no socket operation is outstanding during resolution). -/
inductive Step : Conn → Conn → Prop where
  | stepGet (env : GetEnv) (s : Conn) (url : String) (timeout prio : Nat)
      (ps : Option ProxySettings) (hr : Int) (ua : String)
      (ba : Option Addr) (rf : Nat) (auth_ : String) :
      s.resolvingHost = false →
      Step s (get env s url timeout prio ps hr ua ba rf auth_).1
  | stepStart (env : StartEnv) (s : Conn) (hostname : String) (port : Int)
      (timeout prio : Nat) (ps : Option ProxySettings) (ssl : Bool)
      (hr : Int) (ba : Option Addr) (rf : Nat) :
      s.resolvingHost = false →
      Step s (start env s hostname port timeout prio ps ssl hr ba rf).1
  | stepResolve (env : ResolveEnv) (s : Conn) (e : ErrCode) (a : List Addr) :
      s.resolvingHost = true →
      Step s (on_resolve env s e a).1
  | stepConnected (cenv : CbEnv) (env : ConnectEnv) (s : Conn) (e : ErrCode)
      (now : Nat) :
      s.connecting = true → s.resolvingHost = false →
      Step s (on_connect cenv env s e now).1
  | stepTimeout (cenv : CbEnv) (env : ConnectEnv) (s : Conn) (e : ErrCode)
      (now : Nat) :
      Step s (on_timeout cenv env s e now).1
  | stepWrite (cenv : CbEnv) (s : Conn) (e : ErrCode) :
      Step s (on_write cenv s e).1
  | stepRead (env : ReadEnv) (s : Conn) (e : ErrCode) (bytes : Nat) :
      Step s (on_read env s e bytes).1
  | stepAssign (cenv : CbEnv) (s : Conn) (e : ErrCode) :
      Step s (on_assign_bandwidth cenv s e).1
  | stepRateLimit (s : Conn) (l : Int) :
      Step s (rate_limit s l).1
  | stepClose (s : Conn) (f : Bool) :
      Step s (close s f).1

/-- Connection states reachable from a freshly constructed object. -/
inductive Reachable : Conn → Prop where
  | init (h ch fh hf b : Bool) (m now : Nat) :
      Reachable (initConn h ch fh hf b m now)
  | step (s s' : Conn) : Reachable s → Step s s' → Reachable s'

/-- The endpoint-index invariant maintained by the connection:
`m_next_ep` never exceeds the endpoint list, and while a resolve is
outstanding the endpoint list is the freshly cleared one. -/
def Inv (s : Conn) : Prop :=
  s.nextEp ≤ s.endpoints.length
    ∧ (s.resolvingHost = true → s.nextEp = 0 ∧ s.endpoints = [])

/-- Two connection states agreeing on the fields that the endpoint-index
invariant depends on. -/
def coreUnchanged (s s' : Conn) : Prop :=
  s'.endpoints = s.endpoints ∧ s'.nextEp = s.nextEp
    ∧ s'.resolvingHost = s.resolvingHost

/-- Parser view of a finished gzip-encoded bottled response. -/
def gzipParser : ParserView :=
  { headerFinished := true, finished := true, statusCode := 200,
    contentEncoding := "gzip", bodySize := 5 }

/-- A bottled connection that has read a complete gzip-encoded response. -/
def gzipState : Conn :=
  { bottled := true, handlerSet := true, maxBottled := 1048576,
    recvSize := 4096, redirects := 0, sockExists := true, sockOpen := true }

/-- Read environment in which the response body is gzip-encoded and
`inflate_gzip` fails. -/
def gzipEnv : ReadEnv := { cb := { inflateOk := false }, parserAfter := gzipParser }

/-- A connection waiting on a resolve, with an `endpoint_filter`
installed. -/
def emptyFilterState : Conn :=
  { handlerSet := true, filterHandlerSet := true, resolvingHost := true,
    sockExists := true, port := 80 }

/-- Resolve environment whose installed `endpoint_filter` removes every
endpoint. -/
def emptyFilterEnv : ResolveEnv := { filter := fun _ => [] }

/-- A connection with an open socket and a read outstanding that was
issued while `m_rate_limit == 0` (so the read amount was not bounded by
the download quota). -/
def unlimitedReadState : Conn :=
  { bottled := true, handlerSet := true, sockExists := true, sockOpen := true,
    recvSize := 4096, maxBottled := 1048576, redirects := 0 }

/-- Read environment whose parser feed succeeds without finishing the
headers. -/
def plainReadEnv : ReadEnv := {}

/-- A bottled connection whose callback has already been delivered. -/
def calledState : Conn := { bottled := true, called := true }

/-- Parser view of a just-finished redirect response header. -/
def redirectParser : ParserView :=
  { headerFinished := true, statusCode := 302, location := "/b" }

/-- A bottled connection mid-request with five redirects left. -/
def redirectState : Conn :=
  { bottled := true, handlerSet := true, recvSize := 4096,
    maxBottled := 1048576, redirects := 5, url := "http://a/x",
    completionTimeout := 30, priority := 1, userAgent := "ua",
    auth := "u:p", sockExists := true, sockOpen := true }

/-- Read environment whose parser feed finishes the headers of a 302
response. -/
def redirectEnv : ReadEnv := { parserAfter := redirectParser }

/-- A bottled connection whose receive buffer is full at the size cap. -/
def fullBufferState : Conn :=
  { handlerSet := true, bottled := true, recvSize := 8, readPos := 8,
    maxBottled := 8 }

/-- Get environment for a plain `http://example.com/x` URL with a marked
base64 encoder. -/
def plainGetEnv : GetEnv :=
  { parse := Option.some
      { protocol := "http", auth := "", hostname := "example.com",
        port := -1, path := "/x" },
    b64 := fun x => x ++ "==" }

/-- A connection whose hostname resolution has been outstanding for
1.5 times the completion timeout. -/
def resolvingTimeoutState : Conn :=
  { resolvingHost := true, startTime := 0, completionTimeout := 10,
    sockExists := true }

end http_connection

namespace http_connection

/-! ### Helper lemmas about the effect predicates -/

lemma hasInvoke_append (l1 l2 : List Effect) :
    hasInvoke (l1 ++ l2) = (hasInvoke l1 || hasInvoke l2) := by
  simp [hasInvoke]

lemma hasConnectAttempt_append (l1 l2 : List Effect) :
    hasConnectAttempt (l1 ++ l2) = (hasConnectAttempt l1 || hasConnectAttempt l2) := by
  simp [hasConnectAttempt]

/-! ### Core-field preservation -/

lemma coreUnchanged_refl (s : Conn) : coreUnchanged s s := ⟨rfl, rfl, rfl⟩

lemma coreUnchanged_trans {s t u : Conn}
    (h1 : coreUnchanged s t) (h2 : coreUnchanged t u) : coreUnchanged s u := by
  obtain ⟨a1, b1, c1⟩ := h1
  obtain ⟨a2, b2, c2⟩ := h2
  exact ⟨a2.trans a1, b2.trans b1, c2.trans c1⟩

lemma inv_of_coreUnchanged {s s' : Conn}
    (h : coreUnchanged s s') (hi : Inv s) : Inv s' := by
  obtain ⟨he, hn, hr⟩ := h
  constructor
  · rw [he, hn]; exact hi.1
  · intro hrh
    rw [hn, he]
    exact hi.2 (by rw [← hr]; exact hrh)

lemma coreUnchanged_callbackFinish (s : Conn) (e : ErrCode) :
    coreUnchanged s (callbackFinish s e).1 := by
  simp [callbackFinish, coreUnchanged]

lemma coreUnchanged_callback (env : CbEnv) (s : Conn) (e : ErrCode) (d : Bool) :
    coreUnchanged s (callback env s e d).1 := by
  unfold callback
  repeat' split
  all_goals exact ⟨rfl, rfl, rfl⟩

lemma coreUnchanged_on_assign_bandwidth (cenv : CbEnv) (s : Conn) (e : ErrCode) :
    coreUnchanged s (on_assign_bandwidth cenv s e).1 := by
  unfold on_assign_bandwidth
  dsimp only
  repeat' split
  all_goals first
    | exact coreUnchanged_callback _ _ _ _
    | exact ⟨rfl, rfl, rfl⟩

attribute [simp] coreUnchanged

@[simp] lemma callback_fst_endpoints (env : CbEnv) (s : Conn) (e : ErrCode) (d : Bool) :
    (callback env s e d).1.endpoints = s.endpoints := (coreUnchanged_callback env s e d).1
@[simp] lemma callback_fst_nextEp (env : CbEnv) (s : Conn) (e : ErrCode) (d : Bool) :
    (callback env s e d).1.nextEp = s.nextEp := (coreUnchanged_callback env s e d).2.1
@[simp] lemma callback_fst_resolvingHost (env : CbEnv) (s : Conn) (e : ErrCode) (d : Bool) :
    (callback env s e d).1.resolvingHost = s.resolvingHost := (coreUnchanged_callback env s e d).2.2

@[simp] lemma on_assign_fst_endpoints (cenv : CbEnv) (s : Conn) (e : ErrCode) :
    (on_assign_bandwidth cenv s e).1.endpoints = s.endpoints := (coreUnchanged_on_assign_bandwidth cenv s e).1
@[simp] lemma on_assign_fst_nextEp (cenv : CbEnv) (s : Conn) (e : ErrCode) :
    (on_assign_bandwidth cenv s e).1.nextEp = s.nextEp := (coreUnchanged_on_assign_bandwidth cenv s e).2.1
@[simp] lemma on_assign_fst_resolvingHost (cenv : CbEnv) (s : Conn) (e : ErrCode) :
    (on_assign_bandwidth cenv s e).1.resolvingHost = s.resolvingHost := (coreUnchanged_on_assign_bandwidth cenv s e).2.2

lemma coreUnchanged_on_read_tail (env : ReadEnv) (s : Conn) :
    coreUnchanged s (on_read_tail env s).1 := by
  unfold on_read_tail
  dsimp only
  repeat' split
  all_goals simp

@[simp] lemma on_read_tail_fst_endpoints (env : ReadEnv) (s : Conn) :
    (on_read_tail env s).1.endpoints = s.endpoints := (coreUnchanged_on_read_tail env s).1
@[simp] lemma on_read_tail_fst_nextEp (env : ReadEnv) (s : Conn) :
    (on_read_tail env s).1.nextEp = s.nextEp := (coreUnchanged_on_read_tail env s).2.1
@[simp] lemma on_read_tail_fst_resolvingHost (env : ReadEnv) (s : Conn) :
    (on_read_tail env s).1.resolvingHost = s.resolvingHost := (coreUnchanged_on_read_tail env s).2.2

lemma coreUnchanged_on_read_body (env : ReadEnv) (s : Conn) (e : ErrCode) :
    coreUnchanged s (on_read_body env s e).1 := by
  unfold on_read_body
  dsimp only
  repeat' split
  all_goals simp

@[simp] lemma on_read_body_fst_endpoints (env : ReadEnv) (s : Conn) (e : ErrCode) :
    (on_read_body env s e).1.endpoints = s.endpoints := (coreUnchanged_on_read_body env s e).1
@[simp] lemma on_read_body_fst_nextEp (env : ReadEnv) (s : Conn) (e : ErrCode) :
    (on_read_body env s e).1.nextEp = s.nextEp := (coreUnchanged_on_read_body env s e).2.1
@[simp] lemma on_read_body_fst_resolvingHost (env : ReadEnv) (s : Conn) (e : ErrCode) :
    (on_read_body env s e).1.resolvingHost = s.resolvingHost := (coreUnchanged_on_read_body env s e).2.2

lemma coreUnchanged_on_read (env : ReadEnv) (s : Conn) (e : ErrCode) (b : Nat) :
    coreUnchanged s (on_read env s e b).1 := by
  unfold on_read
  dsimp only
  repeat' split
  all_goals simp

lemma coreUnchanged_on_write (cenv : CbEnv) (s : Conn) (e : ErrCode) :
    coreUnchanged s (on_write cenv s e).1 := by
  unfold on_write
  dsimp only
  repeat' split
  all_goals simp

lemma coreUnchanged_close (s : Conn) (f : Bool) :
    coreUnchanged s (close s f).1 := by
  unfold close
  dsimp only
  repeat' split
  all_goals simp

lemma coreUnchanged_rate_limit (s : Conn) (l : Int) :
    coreUnchanged s (rate_limit s l).1 := by
  unfold rate_limit
  dsimp only
  repeat' split
  all_goals simp


/-! ### Facts about `connect` -/

@[simp] lemma connect_fst_resolvingHost (env : ConnectEnv) (s : Conn) :
    (connect env s).1.resolvingHost = s.resolvingHost := by
  unfold connect
  rcases hip : env.hostnameAsIP with _ | a <;>
    rcases hep : s.endpoints with _ | ⟨ep, rest⟩ <;>
      simp only [hip, hep] <;> repeat' split
  all_goals rfl

@[simp] lemma connect_fst_endpoints_length (env : ConnectEnv) (s : Conn) :
    (connect env s).1.endpoints.length = s.endpoints.length := by
  unfold connect
  rcases hip : env.hostnameAsIP with _ | a <;>
    rcases hep : s.endpoints with _ | ⟨ep, rest⟩ <;>
      simp only [hip, hep] <;> repeat' split
  all_goals simp_all

lemma connect_fst_nextEp_mono (env : ConnectEnv) (s : Conn) :
    s.nextEp ≤ (connect env s).1.nextEp := by
  unfold connect
  rcases hip : env.hostnameAsIP with _ | a <;>
    rcases hep : s.endpoints with _ | ⟨ep, rest⟩ <;>
      simp only [hip, hep] <;> repeat' split
  all_goals first | exact Nat.le_refl _ | exact Nat.le_succ _

lemma connect_fst_nextEp_le (env : ConnectEnv) (s : Conn) :
    (connect env s).1.nextEp ≤ max s.nextEp s.endpoints.length := by
  unfold connect
  rcases hip : env.hostnameAsIP with _ | a <;>
    rcases hep : s.endpoints with _ | ⟨ep, rest⟩ <;>
      simp only [hip, hep] <;> repeat' split
  all_goals simp_all
  all_goals omega

lemma connect_fst_of_nil (env : ConnectEnv) (s : Conn) (h : s.endpoints = []) :
    (connect env s).1.endpoints = [] ∧ (connect env s).1.nextEp = s.nextEp := by
  unfold connect
  rcases hip : env.hostnameAsIP with _ | a <;>
      simp only [hip, h] <;> repeat' split
  all_goals simp_all

lemma connect_no_attempt (env : ConnectEnv) (s : Conn)
    (h : s.endpoints.length ≤ s.nextEp) :
    hasConnectAttempt (connect env s).2 = false := by
  unfold connect
  rcases hip : env.hostnameAsIP with _ | a <;>
    rcases hep : s.endpoints with _ | ⟨ep, rest⟩ <;>
      simp only [hip, hep] <;> repeat' split
  all_goals simp_all [hasConnectAttempt, isConnectAttempt]

lemma connect_attempt_of_lt (env : ConnectEnv) (s : Conn)
    (h : s.nextEp < s.endpoints.length) :
    hasConnectAttempt (connect env s).2 = true := by
  unfold connect
  rcases hip : env.hostnameAsIP with _ | a <;>
    rcases hep : s.endpoints with _ | ⟨ep, rest⟩ <;>
      simp only [hip, hep] <;> repeat' split
  all_goals simp_all [hasConnectAttempt, isConnectAttempt]
  all_goals omega

lemma inv_connect (env : ConnectEnv) (s : Conn) (h : Inv s) : Inv (connect env s).1 := by
  constructor
  · have h1 := connect_fst_nextEp_le env s
    have h2 := connect_fst_endpoints_length env s
    have h3 := h.1
    omega
  · intro hr
    have hr2 : s.resolvingHost = true := by
      rw [← connect_fst_resolvingHost env s]; exact hr
    obtain ⟨hn, he⟩ := h.2 hr2
    obtain ⟨he2, hn2⟩ := connect_fst_of_nil env s he
    exact ⟨hn2.trans hn, he2⟩

@[simp] lemma close_fst_endpoints (s : Conn) (f : Bool) :
    (close s f).1.endpoints = s.endpoints := (coreUnchanged_close s f).1
@[simp] lemma close_fst_nextEp (s : Conn) (f : Bool) :
    (close s f).1.nextEp = s.nextEp := (coreUnchanged_close s f).2.1
@[simp] lemma close_fst_resolvingHost (s : Conn) (f : Bool) :
    (close s f).1.resolvingHost = s.resolvingHost := (coreUnchanged_close s f).2.2

/-! ### Invariant preservation -/

set_option maxHeartbeats 1000000 in
lemma inv_start (env : StartEnv) (s : Conn) (hostname : String) (port : Int)
    (timeout prio : Nat) (ps : Option ProxySettings) (ssl : Bool) (hr : Int)
    (ba : Option Addr) (rf : Nat) (h : Inv s) (hres : s.resolvingHost = false) :
    Inv (start env s hostname port timeout prio ps ssl hr ba rf).1 := by
  unfold start
  rcases ps with _ | p <;> dsimp only <;> repeat' split
  all_goals first
    | exact ⟨h.1, fun hx => by simp [hres] at hx⟩
    | exact inv_connect _ _ ⟨Nat.zero_le _, fun hx => by simp [hres] at hx⟩
    | exact ⟨Nat.zero_le _, fun _ => ⟨rfl, rfl⟩⟩

set_option maxHeartbeats 1000000 in
lemma inv_get (env : GetEnv) (s : Conn) (url : String) (timeout prio : Nat)
    (ps : Option ProxySettings) (hr : Int) (ua : String) (ba : Option Addr)
    (rf : Nat) (auth_ : String) (h : Inv s) (hres : s.resolvingHost = false) :
    Inv (get env s url timeout prio ps hr ua ba rf auth_).1 := by
  unfold get
  rcases env.parse with _ | u <;> dsimp only <;> repeat' split
  all_goals first
    | exact ⟨h.1, fun hx => by simp [hres] at hx⟩
    | exact inv_start _ _ _ _ _ _ _ _ _ _ _ h hres

set_option maxHeartbeats 1000000 in
lemma inv_on_resolve (env : ResolveEnv) (s : Conn) (e : ErrCode)
    (addrs : List Addr) (h : Inv s) (hres : s.resolvingHost = true) :
    Inv (on_resolve env s e addrs).1 := by
  obtain ⟨hn, he⟩ := h.2 hres
  unfold on_resolve
  dsimp only
  repeat' split
  all_goals first
    | exact inv_connect _ _ ⟨by simp [hn], fun hx => by simp at hx⟩
    | exact inv_of_coreUnchanged (coreUnchanged_callback _ _ _ _)
        ⟨by simp [hn], fun hx => by simp at hx⟩
    | exact inv_of_coreUnchanged (coreUnchanged_close _ _)
        ⟨by simp [hn], fun hx => by simp at hx⟩

set_option maxHeartbeats 1000000 in
lemma inv_on_connect (cenv : CbEnv) (env : ConnectEnv) (s : Conn) (e : ErrCode)
    (now : Nat) (h : Inv s) (hres : s.resolvingHost = false) :
    Inv (on_connect cenv env s e now).1 := by
  unfold on_connect
  dsimp only
  repeat' split
  all_goals first
    | exact ⟨h.1, fun hx => by simp [hres] at hx⟩
    | exact inv_connect _ _ ⟨h.1, fun hx => by simp [hres] at hx⟩
    | exact inv_of_coreUnchanged (coreUnchanged_callback _ _ _ _)
        ⟨h.1, fun hx => by simp [hres] at hx⟩

set_option maxHeartbeats 1000000 in
lemma inv_on_timeout (cenv : CbEnv) (env : ConnectEnv) (s : Conn) (e : ErrCode)
    (now : Nat) (h : Inv s) : Inv (on_timeout cenv env s e now).1 := by
  unfold on_timeout
  dsimp only
  by_cases hres : s.resolvingHost = true
  · obtain ⟨hn, he⟩ := h.2 hres
    have hlen : s.endpoints.length = 0 := by rw [he]; rfl
    repeat' split
    all_goals first
      | exact h
      | (exfalso; omega)
      | exact ⟨by simp [hn], fun hx => ⟨by simp [hn], by simp [he]⟩⟩
  · have hres2 : s.resolvingHost = false := by
      revert hres; cases s.resolvingHost <;> simp
    repeat' split
    all_goals first
      | exact h
      | exact ⟨h.1, fun hx => by simp [hres2] at hx⟩
      | exact inv_connect _ _ ⟨h.1, fun hx => by simp [hres2] at hx⟩
      | exact inv_of_coreUnchanged (coreUnchanged_callback _ _ _ _)
          ⟨h.1, fun hx => by simp [hres2] at hx⟩

/-! ### `m_next_ep` monotonicity of the completion handlers -/

set_option maxHeartbeats 1000000 in
lemma on_resolve_nextEp_mono (env : ResolveEnv) (s : Conn) (e : ErrCode)
    (addrs : List Addr) : s.nextEp ≤ (on_resolve env s e addrs).1.nextEp := by
  unfold on_resolve
  dsimp only
  repeat' split
  all_goals first
    | (refine le_trans ?_ (connect_fst_nextEp_mono _ _); exact Nat.le_refl _)
    | simp

set_option maxHeartbeats 1000000 in
lemma on_connect_nextEp_mono (cenv : CbEnv) (env : ConnectEnv) (s : Conn)
    (e : ErrCode) (now : Nat) : s.nextEp ≤ (on_connect cenv env s e now).1.nextEp := by
  unfold on_connect
  dsimp only
  repeat' split
  all_goals first
    | (refine le_trans ?_ (connect_fst_nextEp_mono _ _); exact Nat.le_refl _)
    | simp

set_option maxHeartbeats 1000000 in
lemma on_timeout_nextEp_mono (cenv : CbEnv) (env : ConnectEnv) (s : Conn)
    (e : ErrCode) (now : Nat) : s.nextEp ≤ (on_timeout cenv env s e now).1.nextEp := by
  unfold on_timeout
  dsimp only
  repeat' split
  all_goals first
    | (refine le_trans ?_ (connect_fst_nextEp_mono _ _); exact Nat.le_refl _)
    | simp

lemma on_read_nextEp_eq (env : ReadEnv) (s : Conn) (e : ErrCode) (b : Nat) :
    (on_read env s e b).1.nextEp = s.nextEp := (coreUnchanged_on_read env s e b).2.1

lemma on_write_nextEp_eq (cenv : CbEnv) (s : Conn) (e : ErrCode) :
    (on_write cenv s e).1.nextEp = s.nextEp := (coreUnchanged_on_write cenv s e).2.1

lemma inv_step {s s' : Conn} (h : Inv s) (hs : Step s s') : Inv s' := by
  cases hs with
  | stepGet env s url timeout prio ps hr ua ba rf auth_ hres =>
    exact inv_get env s url timeout prio ps hr ua ba rf auth_ h hres
  | stepStart env s hostname port timeout prio ps ssl hr ba rf hres =>
    exact inv_start env s hostname port timeout prio ps ssl hr ba rf h hres
  | stepResolve env s e a hres => exact inv_on_resolve env s e a h hres
  | stepConnected cenv env s e now hc hres => exact inv_on_connect cenv env s e now h hres
  | stepTimeout cenv env s e now => exact inv_on_timeout cenv env s e now h
  | stepWrite cenv s e => exact inv_of_coreUnchanged (coreUnchanged_on_write cenv s e) h
  | stepRead env s e bytes => exact inv_of_coreUnchanged (coreUnchanged_on_read env s e bytes) h
  | stepAssign cenv s e => exact inv_of_coreUnchanged (coreUnchanged_on_assign_bandwidth cenv s e) h
  | stepRateLimit s l => exact inv_of_coreUnchanged (coreUnchanged_rate_limit s l) h
  | stepClose s f => exact inv_of_coreUnchanged (coreUnchanged_close s f) h

lemma reachable_inv (s : Conn) (h : Reachable s) : Inv s := by
  induction h with
  | init h ch fh hf b m now => exact ⟨Nat.le_refl 0, fun _ => ⟨rfl, rfl⟩⟩
  | step s s' _ hs ih => exact inv_step ih hs

/-! ### Claim theorems -/

/-- C8: in every reachable state `next_ep ≤ endpoints.size()` (lines
283-284 reset it with the endpoint list, line 465 guards the increment);
`next_ep` never decreases in any completion handler or user call other
than `start`/`get`; and once `next_ep` equals `endpoints.size()`,
`connect` issues no further `async_connect` attempt. -/
theorem next_ep_invariant :
    (∀ s : Conn, Reachable s → s.nextEp ≤ s.endpoints.length)
    ∧ (∀ (env : ResolveEnv) (s : Conn) (e : ErrCode) (a : List Addr),
        s.nextEp ≤ (on_resolve env s e a).1.nextEp)
    ∧ (∀ (cenv : CbEnv) (env : ConnectEnv) (s : Conn) (e : ErrCode) (now : Nat),
        s.nextEp ≤ (on_connect cenv env s e now).1.nextEp)
    ∧ (∀ (cenv : CbEnv) (env : ConnectEnv) (s : Conn) (e : ErrCode) (now : Nat),
        s.nextEp ≤ (on_timeout cenv env s e now).1.nextEp)
    ∧ (∀ (env : ReadEnv) (s : Conn) (e : ErrCode) (b : Nat),
        s.nextEp ≤ (on_read env s e b).1.nextEp)
    ∧ (∀ (cenv : CbEnv) (s : Conn) (e : ErrCode),
        s.nextEp ≤ (on_write cenv s e).1.nextEp)
    ∧ (∀ (cenv : CbEnv) (s : Conn) (e : ErrCode),
        s.nextEp ≤ (on_assign_bandwidth cenv s e).1.nextEp)
    ∧ (∀ (s : Conn) (l : Int), s.nextEp ≤ (rate_limit s l).1.nextEp)
    ∧ (∀ (s : Conn) (f : Bool), s.nextEp ≤ (close s f).1.nextEp)
    ∧ (∀ (env : ConnectEnv) (s : Conn), s.endpoints.length ≤ s.nextEp →
        hasConnectAttempt (connect env s).2 = false) := by
  refine ⟨fun s h => (reachable_inv s h).1,
    on_resolve_nextEp_mono, on_connect_nextEp_mono, on_timeout_nextEp_mono,
    fun env s e b => le_of_eq (on_read_nextEp_eq env s e b).symm,
    fun cenv s e => le_of_eq (on_write_nextEp_eq cenv s e).symm,
    fun cenv s e => le_of_eq (coreUnchanged_on_assign_bandwidth cenv s e).2.1.symm,
    fun s l => le_of_eq (coreUnchanged_rate_limit s l).2.1.symm,
    fun s f => le_of_eq (coreUnchanged_close s f).2.1.symm,
    connect_no_attempt⟩

/-- Witness for C8 at concrete inputs: the freshly constructed connection
satisfies the bound, a `rate_limit` call does not decrease `next_ep`, and
`connect` at capacity (`next_ep = endpoints.size() = 0`) issues no
attempt. -/
theorem next_ep_invariant_witness :
    (initConn true false false false true 1024 0).nextEp
        ≤ (initConn true false false false true 1024 0).endpoints.length
    ∧ (initConn true false false false true 1024 0).nextEp
        ≤ (rate_limit (initConn true false false false true 1024 0) 7).1.nextEp
    ∧ hasConnectAttempt (connect {} (initConn true false false false true 1024 0)).2 = false :=
  ⟨next_ep_invariant.1 _ (Reachable.init true false false false true 1024 0),
   next_ep_invariant.2.2.2.2.2.2.2.1 _ 7,
   next_ep_invariant.2.2.2.2.2.2.2.2.2 {} _ (Nat.le_refl 0)⟩

lemma close_of_abort (s : Conn) (f : Bool) (h : s.abort = true) :
    close s f = (s, []) := by
  unfold close; simp [h]

lemma close_fst_abort (s : Conn) (f : Bool) : (close s f).1.abort = true := by
  unfold close; dsimp only; repeat' split; all_goals simp_all

lemma hasInvoke_close (s : Conn) (f : Bool) : hasInvoke (close s f).2 = false := by
  unfold close; dsimp only; repeat' split
  all_goals simp_all [hasInvoke, isInvoke]

lemma callback_delivers (env : CbEnv) (s : Conn) (e : ErrCode) (d : Bool)
    (hh : s.handlerSet = true) (hc : s.called = false) :
    hasInvoke (callback env s e d).2 = true := by
  unfold callback callbackFinish
  repeat' split
  all_goals simp_all [hasInvoke, isInvoke]

/-- C10: `close(force)` is idempotent (line 353 `if (m_abort) return;`):
the first call sets the `m_abort` flag, and any further `close` call, with
either `force` value, returns immediately with the state unchanged and no
effects. -/
theorem close_idempotent (s : Conn) (f f' : Bool) :
    (close s f).1.abort = true
    ∧ close (close s f).1 f' = ((close s f).1, []) :=
  ⟨close_fst_abort s f, close_of_abort _ f' (close_fst_abort s f)⟩

/-- C1 (amended): in bottled mode, once the `m_called` flag is set,
`callback` returns immediately on every path — including the
gzip-inflate-error path, which is behind the same initial check — with no
handler invocation and no state change (line 509). -/
theorem callback_suppressed_once_called (env : CbEnv) (s : Conn) (e : ErrCode)
    (d : Bool) (hb : s.bottled = true) (hc : s.called = true) :
    callback env s e d = (s, []) := by
  unfold callback; simp [hb, hc]

/-- Witness for the amended C1: a concrete bottled connection with the
flag set gets nothing delivered. -/
theorem callback_suppressed_once_called_witness :
    callback {} calledState ErrCode.eofErr true = (calledState, []) :=
  callback_suppressed_once_called {} calledState ErrCode.eofErr true rfl rfl

/-- Counterexample to C1 as stated: in bottled mode with a gzip-encoded
response whose inflation fails, the delivery at line 524 returns before
`m_called` is set (line 535), so one logical `get` can invoke
`response_handler` twice: once when the parser finishes and once more on
the subsequent EOF read. -/
theorem gzip_error_double_delivery :
    countInvoke (on_read gzipEnv gzipState ErrCode.success 5).2 = 1
    ∧ (on_read gzipEnv gzipState ErrCode.success 5).1.called = false
    ∧ countInvoke (on_read gzipEnv (on_read gzipEnv gzipState ErrCode.success 5).1
        ErrCode.eofErr 0).2 = 1 := by decide

/-- C6 (amended): `on_timeout` computes the effective deadline as
`start_time + completion_timeout * 2` while `m_resolving_host` and `* 1`
otherwise (line 322), so a resolution taking 1.5 x the timeout raises no
timeout; but when the deadline has not passed, the timer is re-armed at
`start_time + completion_timeout` (line 347) — the undoubled time, which
equals the effective deadline only when `m_resolving_host` is false. -/
theorem on_timeout_rearm (cenv : CbEnv) (env : ConnectEnv) (s : Conn)
    (e : ErrCode) (now : Nat) (h1 : e ≠ ErrCode.operationAborted)
    (h2 : s.abort = false)
    (h3 : now < s.startTime + s.completionTimeout
        * (if s.resolvingHost then 2 else 1)) :
    on_timeout cenv env s e now
      = (s, [Effect.armTimerAt (s.startTime + s.completionTimeout)]) := by
  unfold on_timeout
  rw [if_neg h1, if_neg (by simp [h2]), if_neg (by omega)]

/-- Witness for the amended C6. -/
theorem on_timeout_rearm_witness :
    on_timeout {} {} resolvingTimeoutState ErrCode.success 15
      = (resolvingTimeoutState,
         [Effect.armTimerAt (resolvingTimeoutState.startTime
            + resolvingTimeoutState.completionTimeout)]) :=
  on_timeout_rearm {} {} resolvingTimeoutState ErrCode.success 15
    (by decide) rfl (by decide)

/-- Counterexample to C6 as stated: with `resolving_host` set, timeout 10
and `now = 15` (1.5 x the timeout), the effective deadline 20 has not
passed and no timeout is raised — but the timer is re-armed at 10, not at
the effective deadline 20. -/
theorem on_timeout_rearm_counterexample :
    resolvingTimeoutState.resolvingHost = true
    ∧ (on_timeout {} {} resolvingTimeoutState ErrCode.success 15).2
        = [Effect.armTimerAt 10]
    ∧ resolvingTimeoutState.startTime
        + resolvingTimeoutState.completionTimeout * 2 = 20
    ∧ (10 : Nat) ≠ 20 :=
  ⟨rfl, rfl, rfl, by decide⟩

/-- C7: the code violates its own `TORRENT_ASSERT(m_download_quota >= 0)`
(line 586).  A read issued while `m_rate_limit == 0` is not bounded by the
quota; if `rate_limit(1000)` is called while that read is outstanding, the
completion at lines 583-587 drives `m_download_quota` to `-4096`. -/
theorem download_quota_negative_after_rate_limit_race :
    0 < (rate_limit unlimitedReadState 1000).1.rateLimit
    ∧ (on_read plainReadEnv (rate_limit unlimitedReadState 1000).1
        ErrCode.success 4096).1.downloadQuota = -4096 := by decide

/-- Counterexample to C2 as stated: when the installed `endpoint_filter`
removes every endpoint, `on_resolve` closes the connection (lines
398-402) without delivering any callback — the effect list is only the
graceful shutdown and the limiter-timer cancel. -/
theorem on_resolve_filter_empty_counterexample :
    (on_resolve emptyFilterEnv emptyFilterState ErrCode.success
        [{ isV4 := true, addrId := 7 }]).2
      = [Effect.asyncShutdown, Effect.cancelLimiterTimer]
    ∧ hasInvoke (on_resolve emptyFilterEnv emptyFilterState ErrCode.success
        [{ isV4 := true, addrId := 7 }]).2 = false
    ∧ (on_resolve emptyFilterEnv emptyFilterState ErrCode.success
        [{ isV4 := true, addrId := 7 }]).1.abort = true
    ∧ emptyFilterState.abort = false
    ∧ emptyFilterState.handlerSet = true :=
  ⟨rfl, rfl, rfl, rfl, rfl⟩

set_option maxHeartbeats 1000000 in
/-- C2 (amended): every terminal path out of `on_resolve` either invokes
the handler, or proceeds to an `async_connect` attempt — except the path
where the endpoint list is empty after the `endpoint_filter` runs, which
closes the connection silently without any callback. -/
theorem on_resolve_terminal_trichotomy (env : ResolveEnv) (s : Conn)
    (e : ErrCode) (addrs : List Addr) (hh : s.handlerSet = true)
    (hc : s.called = false) (hn : s.nextEp = 0)
    (hshuffle : ∀ l, (env.shuffle l).length = l.length) :
    hasInvoke (on_resolve env s e addrs).2 = true
    ∨ hasConnectAttempt (on_resolve env s e addrs).2 = true
    ∨ ((on_resolve env s e addrs).1.abort = true
        ∧ hasInvoke (on_resolve env s e addrs).2 = false) := by
  unfold on_resolve
  dsimp only
  repeat' split
  all_goals first
    | exact Or.inl (callback_delivers _ _ _ _ hh hc)
    | exact Or.inr (Or.inr ⟨close_fst_abort _ _, hasInvoke_close _ _⟩)
    | (refine Or.inl ?_
       simp only [hasInvoke_append, Bool.or_eq_true]
       exact Or.inl (callback_delivers _ _ _ _ hh hc))
    | (refine Or.inr (Or.inl (connect_attempt_of_lt _ _ ?_))
       simp only [hn]
       first
         | (rw [hshuffle]; exact List.length_pos.mpr (by assumption))
         | exact List.length_pos.mpr (by assumption))

/-- Witness for the amended C2, at a concrete resolve completion whose
filter removes every endpoint (the silent-close disjunct). -/
theorem on_resolve_terminal_trichotomy_witness :
    hasInvoke (on_resolve emptyFilterEnv emptyFilterState ErrCode.success
        [{ isV4 := true, addrId := 7 }]).2 = true
    ∨ hasConnectAttempt (on_resolve emptyFilterEnv emptyFilterState ErrCode.success
        [{ isV4 := true, addrId := 7 }]).2 = true
    ∨ ((on_resolve emptyFilterEnv emptyFilterState ErrCode.success
        [{ isV4 := true, addrId := 7 }]).1.abort = true
        ∧ hasInvoke (on_resolve emptyFilterEnv emptyFilterState ErrCode.success
            [{ isV4 := true, addrId := 7 }]).2 = false) :=
  on_resolve_terminal_trichotomy emptyFilterEnv emptyFilterState ErrCode.success
    [{ isV4 := true, addrId := 7 }] rfl rfl rfl (fun _ => rfl)

set_option maxHeartbeats 1000000 in
/-- C5: in `on_read`, when the headers finish with `m_redirects > 0` and a
redirect status (lines 637-666): a missing `Location` delivers
`http_missing_location`; otherwise the socket is hard-closed and `get` is
re-invoked on `resolve_redirect_location(m_url, location)` with
`m_redirects - 1`, preserving the timeout, priority, proxy snapshot,
user-agent, bind address, resolve flags and auth of the original request. -/
theorem on_read_redirect (env : ReadEnv) (s : Conn) (bytes : Nat)
    (h1 : s.abort = false)
    (h2 : s.bottled = true ∨ s.parser.headerFinished = false)
    (h3 : env.parseError = false)
    (h4 : 0 < s.redirects)
    (h5 : env.parserAfter.headerFinished = true)
    (h6 : env.isRedirect env.parserAfter.statusCode = true)
    (h7 : s.called = false) (h8 : s.handlerSet = true) :
    (env.parserAfter.location = "" →
      (on_read env s ErrCode.success bytes).2
        = [Effect.cancelTimer, Effect.invokeHandler ErrCode.httpMissingLocation])
    ∧ (env.parserAfter.location ≠ "" →
      (on_read env s ErrCode.success bytes).2
        = [Effect.closeSock,
           Effect.recursiveGet (env.resolveRedirect s.url env.parserAfter.location)
             s.completionTimeout s.priority s.proxy (s.redirects - 1)
             s.userAgent s.bindAddr s.resolveFlags s.auth]
      ∧ (on_read env s ErrCode.success bytes).1.sockOpen = false) := by
  have h4' : s.redirects ≠ 0 := by omega
  rcases eq_or_ne s.rateLimit 0 with hq | hq <;>
    rcases h2 with h2 | h2 <;>
      refine ⟨fun hloc => ?_, fun hloc => ⟨?_, ?_⟩⟩ <;>
        simp_all [on_read, on_read_body, callback, callbackFinish]

/-- Witness for C5 at a concrete 302 response carrying `Location: /b`. -/
theorem on_read_redirect_witness :
    (on_read redirectEnv redirectState ErrCode.success 64).2
      = [Effect.closeSock,
         Effect.recursiveGet (redirectEnv.resolveRedirect redirectState.url
             redirectEnv.parserAfter.location)
           redirectState.completionTimeout redirectState.priority
           redirectState.proxy (redirectState.redirects - 1)
           redirectState.userAgent redirectState.bindAddr
           redirectState.resolveFlags redirectState.auth]
    ∧ (on_read redirectEnv redirectState ErrCode.success 64).1.sockOpen = false :=
  (on_read_redirect redirectEnv redirectState 64 rfl (Or.inl rfl) rfl
    (by decide) rfl (by decide) rfl rfl).2 (by decide)

@[simp] lemma callback_fst_recvSize (env : CbEnv) (s : Conn) (e : ErrCode) (d : Bool) :
    (callback env s e d).1.recvSize = s.recvSize := by
  unfold callback; split_ifs <;> rfl

@[simp] lemma on_assign_fst_recvSize (cenv : CbEnv) (s : Conn) (e : ErrCode) :
    (on_assign_bandwidth cenv s e).1.recvSize = s.recvSize := by
  unfold on_assign_bandwidth; dsimp only; repeat' split
  all_goals first | rfl | simp

set_option maxHeartbeats 1000000 in
/-- C9: in the shared tail of `on_read` (lines 695-705), a full receive
buffer is resized to `min(2 * read_pos, max_bottled_buffer_size)`, and
when `read_pos` has reached `max_bottled_buffer_size` the connection
fails by delivering `file_too_large` and issues no further
`async_read_some`. -/
theorem on_read_tail_grow (env : ReadEnv) (s : Conn)
    (h1 : s.handlerSet = true) (h2 : s.called = false) :
    (s.recvSize = s.readPos →
      (on_read_tail env s).1.recvSize = min (s.readPos * 2) s.maxBottled)
    ∧ (s.readPos = s.maxBottled →
      (on_read_tail env s).2
        = [Effect.cancelTimer, Effect.invokeHandler ErrCode.fileTooLarge]
      ∧ hasReadSome (on_read_tail env s).2 = false) := by
  constructor
  · intro hfull
    unfold on_read_tail
    dsimp only
    rw [if_pos hfull]
    repeat' split
    all_goals simp
  · intro hmax
    unfold on_read_tail callback callbackFinish
    dsimp only
    repeat' split
    all_goals simp_all [hasReadSome, isReadSome]

/-- Witness for C9: a full buffer at the cap (`read_pos = size = max = 8`)
is "resized" to the cap and fails with `file_too_large`, with no further
read issued. -/
theorem on_read_tail_grow_witness :
    (on_read_tail plainReadEnv fullBufferState).1.recvSize
        = min (fullBufferState.readPos * 2) fullBufferState.maxBottled
    ∧ (on_read_tail plainReadEnv fullBufferState).2
        = [Effect.cancelTimer, Effect.invokeHandler ErrCode.fileTooLarge]
    ∧ hasReadSome (on_read_tail plainReadEnv fullBufferState).2 = false :=
  ⟨(on_read_tail_grow plainReadEnv fullBufferState rfl rfl).1 rfl,
   ((on_read_tail_grow plainReadEnv fullBufferState rfl rfl).2 rfl).1,
   ((on_read_tail_grow plainReadEnv fullBufferState rfl rfl).2 rfl).2⟩

lemma hasInvoke_connect (env : ConnectEnv) (s : Conn) :
    hasInvoke (connect env s).2 = false := by
  unfold connect
  rcases hip : env.hostnameAsIP with _ | a <;>
    rcases hep : s.endpoints with _ | ⟨ep, rest⟩ <;>
      simp only [hip, hep] <;> repeat' split
  all_goals simp_all [hasInvoke, isInvoke]

lemma hasInvoke_start (env : StartEnv) (s : Conn) (hostname : String)
    (port : Int) (timeout prio : Nat) (ps : Option ProxySettings) (ssl : Bool)
    (hr : Int) (ba : Option Addr) (rf : Nat) :
    hasInvoke (start env s hostname port timeout prio ps ssl hr ba rf).2 = false := by
  unfold start
  rcases ps with _ | p <;> dsimp only <;> repeat' split
  all_goals (try simp only [hasInvoke_append, hasInvoke_connect])
  all_goals simp [hasInvoke, isInvoke]

lemma hasInvoke_get (env : GetEnv) (s : Conn) (url : String)
    (timeout prio : Nat) (ps : Option ProxySettings) (hr : Int) (ua : String)
    (ba : Option Addr) (rf : Nat) (auth_ : String) :
    hasInvoke (get env s url timeout prio ps hr ua ba rf auth_).2 = false := by
  unfold get
  rcases env.parse with _ | u <;> dsimp only <;> repeat' split
  all_goals first
    | exact hasInvoke_start _ _ _ _ _ _ _ _ _ _ _
    | simp [hasInvoke, isInvoke]

set_option maxHeartbeats 1000000 in
/-- C3: every `get` whose URL fails to parse, whose host the installed
`hostname_filter` rejects, or whose scheme is neither http nor https,
posts the corresponding error (`url_parse_error`, `blocked_by_idna`,
`unsupported_url_protocol`) to the event loop (lines 108-133), and on no
input does `get` invoke the handler synchronously. -/
theorem get_posted_errors (env : GetEnv) (s : Conn) (url : String)
    (timeout prio : Nat) (ps : Option ProxySettings) (hr : Int) (ua : String)
    (ba : Option Addr) (rf : Nat) (auth_ : String) :
    (env.parse = Option.none →
      (get env s url timeout prio ps hr ua ba rf auth_).2
        = [Effect.postCallback ErrCode.urlParseError])
    ∧ (∀ u : UrlParts, env.parse = Option.some u →
        s.hostnameFilterSet = true → env.hostnameAllowed u.hostname = false →
        (get env s url timeout prio ps hr ua ba rf auth_).2
          = [Effect.postCallback ErrCode.blockedByIdna])
    ∧ (∀ u : UrlParts, env.parse = Option.some u →
        (s.hostnameFilterSet = true → env.hostnameAllowed u.hostname = true) →
        u.protocol ≠ "http" → u.protocol ≠ "https" →
        (get env s url timeout prio ps hr ua ba rf auth_).2
          = [Effect.postCallback ErrCode.unsupportedUrlProtocol])
    ∧ hasInvoke (get env s url timeout prio ps hr ua ba rf auth_).2 = false := by
  refine ⟨fun hp => ?_, fun u hp hf hal => ?_, fun u hp hfa hp1 hp2 => ?_,
    hasInvoke_get env s url timeout prio ps hr ua ba rf auth_⟩
  · simp [get, hp]
  · simp [get, hp, hf, hal]
  · by_cases hf : s.hostnameFilterSet = true
    · simp [get, hp, hf, hfa hf, hp1, hp2]
    · simp [get, hp, hf, hp1, hp2]

/-- Witness for C3: a URL that fails to parse gets `url_parse_error`
posted (and not invoked synchronously). -/
theorem get_posted_errors_witness :
    (get { parse := Option.none } (initConn true false false false true 1024 0)
        "bad-url" 30 1 Option.none 5 "" Option.none 0 "").2
      = [Effect.postCallback ErrCode.urlParseError] :=
  (get_posted_errors { parse := Option.none }
    (initConn true false false false true 1024 0)
    "bad-url" 30 1 Option.none 5 "" Option.none 0 "").1 rfl

lemma connect_fst_sendbuffer (env : ConnectEnv) (s : Conn) :
    (connect env s).1.sendbuffer = s.sendbuffer := by
  unfold connect
  rcases hip : env.hostnameAsIP with _ | a <;>
    rcases hep : s.endpoints with _ | ⟨ep, rest⟩ <;>
      simp only [hip, hep] <;> repeat' split
  all_goals rfl

lemma start_fst_sendbuffer (env : StartEnv) (s : Conn) (hostname : String)
    (port : Int) (timeout prio : Nat) (ps : Option ProxySettings) (ssl : Bool)
    (hr : Int) (ba : Option Addr) (rf : Nat) :
    (start env s hostname port timeout prio ps ssl hr ba rf).1.sendbuffer
      = s.sendbuffer := by
  unfold start
  rcases ps with _ | p <;> dsimp only <;> repeat' split
  all_goals first
    | rfl
    | exact connect_fst_sendbuffer _ _

set_option maxHeartbeats 1000000 in
/-- C4: for every `get` that does not use a plain (non-TLS) HTTP proxy,
the serialized request (lines 139-181) is exactly
`GET <path> HTTP/1.1`, `Host` with the port only when it differs from the
scheme default (443 for https, 80 for http), then in order: `User-Agent`
if non-empty, `Accept-Encoding: gzip` if bottled,
`Authorization: Basic b64(auth)` if the effective auth is non-empty,
`Connection: close`, and the blank line — no `Accept` header is emitted
(it is commented out at line 168). -/
theorem get_request_format (env : GetEnv) (s : Conn) (url : String)
    (timeout prio : Nat) (ps : Option ProxySettings) (hr : Int) (ua : String)
    (ba : Option Addr) (rf : Nat) (auth_ : String) (u : UrlParts)
    (dp ep : Int) (a : String)
    (hp : env.parse = Option.some u)
    (hf : s.hostnameFilterSet = true → env.hostnameAllowed u.hostname = true)
    (hproto : u.protocol = "http" ∨ u.protocol = "https")
    (hnp : ∀ p : ProxySettings, ps = Option.some p →
        p.ptype = ProxyType.http ∨ p.ptype = ProxyType.http_pw →
        u.protocol = "https")
    (hdp : dp = if u.protocol = "https" then 443 else 80)
    (hep : ep = if u.port = -1 then dp else u.port)
    (ha : a = if u.auth = "" then auth_ else u.auth) :
    (get env s url timeout prio ps hr ua ba rf auth_).1.sendbuffer
      = ("GET " ++ u.path ++ " HTTP/1.1\r\nHost: " ++ u.hostname
          ++ (if ep ≠ dp then ":" ++ toString ep else "") ++ "\r\n")
        ++ ((if ua ≠ "" then "User-Agent: " ++ ua ++ "\r\n" else "")
          ++ (if s.bottled then "Accept-Encoding: gzip\r\n" else "")
          ++ (if a ≠ "" then "Authorization: Basic " ++ env.b64 a ++ "\r\n"
              else "")
          ++ "Connection: close\r\n\r\n") := by
  subst hdp hep ha
  unfold get
  simp only [hp]
  have hfilter : ¬(s.hostnameFilterSet = true
      ∧ env.hostnameAllowed u.hostname = false) := by
    rintro ⟨hx, hy⟩
    rw [hf hx] at hy
    cases hy
  rw [if_neg hfilter, if_neg (by rcases hproto with h | h <;> simp [h])]
  rw [start_fst_sendbuffer]
  unfold build_request
  rcases ps with _ | p
  · rfl
  · by_cases hpt : p.ptype = ProxyType.http ∨ p.ptype = ProxyType.http_pw
    · have hssl := hnp p rfl hpt
      simp [hssl]
    · simp [hpt]

/-- Witness for C4 at a concrete plain-HTTP `get` with a user agent,
bottled mode, auth, and the default port elided from `Host`. -/
theorem get_request_format_witness :
    (get plainGetEnv { bottled := true, handlerSet := true }
        "http://example.com/x" 30 1 Option.none 5 "ua" Option.none 0 "u:p").1.sendbuffer
      = "GET /x HTTP/1.1\r\nHost: example.com\r\nUser-Agent: ua\r\n"
        ++ "Accept-Encoding: gzip\r\nAuthorization: Basic u:p==\r\n"
        ++ "Connection: close\r\n\r\n" := by
  have h := get_request_format plainGetEnv { bottled := true, handlerSet := true }
    "http://example.com/x" 30 1 Option.none 5 "ua" Option.none 0 "u:p"
    { protocol := "http", auth := "", hostname := "example.com",
      port := -1, path := "/x" }
    80 80 "u:p" rfl (fun hx => by cases hx) (Or.inl rfl)
    (fun p hps => by cases hps) (by decide) (by decide) rfl
  rw [h]
  decide
